import Mathlib

/-!
Shallow embedding of `src/ml_studio/services/validation/conditions.py`
(module `ml_studio.services.validation.conditions`): the composite
rule-condition engine made of `BaseCondition`, `Condition` (atomic node)
and `ConditionSet` (composite node), together with the evaluation
protocol (operand resolution, predicate invocation, logical aggregation,
target/attribute propagation through the tree).

Modelling conventions:
  * Python runtime values that the claims need are the inductive `Value`
    (None, int, str, bool); target instances are `PyObj` (either a
    primitive value or an object with a class name and named attributes).
  * `getattr`/`hasattr` are modelled by `lookupAttr`; as in CPython,
    `hasattr` is "`getattr` succeeds".
  * Exceptions are modelled with `Except EvalErr`; the in-place mutation
    aspect of the original is modelled by state passing (each method
    returns the updated node, mirroring `return self`).
  * The predicate library `ml_studio.services.validation.utils` is not
    part of the given sources; `applyPred` models it from the spec
    (pure named predicates `(a, b) -> bool`, comparisons defined on the
    types they document, a `TypeError` outside them).
-/

set_option autoImplicit false

namespace MLStudio

/-- A Python value as far as the condition engine inspects it:
`None`, integers, strings and booleans. -/
inductive Value where
  | none
  | int (n : Int)
  | str (s : String)
  | bool (b : Bool)
deriving DecidableEq, Repr

/-- A Python object used as a bound target instance: either a bare
primitive value or an object of some class with named attributes. -/
inductive PyObj where
  | prim (v : Value)
  | obj (cls : String) (attrs : List (String × Value))
deriving DecidableEq, Repr

/-- `getattr(inst, name)` when it succeeds: the first attribute entry
with the given name; `Option.none` models `AttributeError`. -/
def lookupAttr (inst : PyObj) (name : String) : Option Value :=
  match inst with
  | PyObj.prim _ => Option.none
  | PyObj.obj _ attrs => (attrs.find? (fun p => p.1 = name)).map (fun p => p.2)

/-- `hasattr(inst, name)`: as in CPython, true exactly when `getattr`
succeeds. -/
def hasattr (inst : PyObj) (name : String) : Bool :=
  (lookupAttr inst name).isSome

/-- `Condition._get_value(a)` (conditions.py lines 376-384): a string is
looked up as an attribute of the evaluated instance; on `AttributeError`
(or when `a` is not a string) the literal value is used as-is. -/
def getValue (inst : PyObj) (a : Value) : Value :=
  match a with
  | Value.str s =>
      match lookupAttr inst s with
      | Option.some v => v
      | Option.none => Value.str s
  | _ => a

/-- `Condition._is_valid`: the string sentinel `"Not evaluated."` before
any evaluation, else the boolean outcome of the latest `evaluate`. -/
inductive Validity where
  | notEvaluated
  | valid (b : Bool)
deriving DecidableEq, Repr

/-- Python truthiness of a `_is_valid` slot as consumed by `all&#47;any` in
`ConditionSet.evaluate`: the non-empty sentinel string is truthy. -/
def truthy : Validity → Bool
  | Validity.notEvaluated => true
  | Validity.valid b => b

/-- The exceptions the embedded code can raise. -/
inductive EvalErr where
  /-- `TypeError` from calling `self._eval_function` while it is still
  `None` (no predicate was ever selected). -/
  | noneNotCallable
  /-- `TypeError` from a predicate applied outside its documented types
  (e.g. ordering `None` against an int). -/
  | typeError
deriving DecidableEq, Repr

/-- The fixed predicate library referenced by the `Condition` selector
methods (the named functions imported from
`ml_studio.services.validation.utils`). -/
inductive PredKind where
  | isNone
  | isNotNone
  | isEmpty
  | isNotEmpty
  | isBool
  | isInteger
  | isNumber
  | isString
  | isEqual
  | isNotEqual
  | isLess
  | isLessEqual
  | isGreater
  | isGreaterEqual
  | isMatch
deriving DecidableEq, Repr

/-- The unary ("syntactic") predicates: those whose selector takes no
operand. -/
def isUnaryPred : PredKind → Bool
  | PredKind.isNone => true
  | PredKind.isNotNone => true
  | PredKind.isEmpty => true
  | PredKind.isNotEmpty => true
  | PredKind.isBool => true
  | PredKind.isInteger => true
  | PredKind.isNumber => true
  | PredKind.isString => true
  | _ => false

/-- Emptiness of a value as the `is_empty` predicate sees it. -/
def valueEmpty : Value → Bool
  | Value.str s => s.isEmpty
  | _ => false

/-- Ordering comparison on the types the predicate library documents
(ints with ints, strings with strings); anything else is a `TypeError`,
as Python ordering of incompatible types raises. -/
def compareValues : Value → Value → Except EvalErr Ordering
  | Value.int m, Value.int n => Except.ok (compare m n)
  | Value.str s, Value.str t => Except.ok (compare s t)
  | _, _ => Except.error EvalErr.typeError

/-- Modelled from the spec: the predicate library
`ml_studio.services.validation.utils` is not among the given sources.
Each predicate is a pure function of the two operands the caller passes
(`(a, b) -> bool`); unary predicates ignore the second operand; equality
is total; ordering predicates are defined on ints and strings and raise
`TypeError` elsewhere; `is_match` is modelled as a literal pattern test
(no claim depends on its semantics). -/
def applyPred : PredKind → Value → Value → Except EvalErr Bool
  | PredKind.isNone, a, _ => Except.ok (decide (a = Value.none))
  | PredKind.isNotNone, a, _ => Except.ok (!decide (a = Value.none))
  | PredKind.isEmpty, a, _ => Except.ok (valueEmpty a)
  | PredKind.isNotEmpty, a, _ => Except.ok (!valueEmpty a)
  | PredKind.isBool, a, _ =>
      Except.ok (match a with | Value.bool _ => true | _ => false)
  | PredKind.isInteger, a, _ =>
      Except.ok (match a with | Value.int _ => true | _ => false)
  | PredKind.isNumber, a, _ =>
      Except.ok (match a with | Value.int _ => true | _ => false)
  | PredKind.isString, a, _ =>
      Except.ok (match a with | Value.str _ => true | _ => false)
  | PredKind.isEqual, a, b => Except.ok (decide (a = b))
  | PredKind.isNotEqual, a, b => Except.ok (!decide (a = b))
  | PredKind.isLess, a, b =>
      (compareValues a b).map (fun o => decide (o = Ordering.lt))
  | PredKind.isLessEqual, a, b =>
      (compareValues a b).map (fun o => !decide (o = Ordering.gt))
  | PredKind.isGreater, a, b =>
      (compareValues a b).map (fun o => decide (o = Ordering.gt))
  | PredKind.isGreaterEqual, a, b =>
      (compareValues a b).map (fun o => !decide (o = Ordering.lt))
  | PredKind.isMatch, a, b =>
      match a, b with
      | Value.str s, Value.str p => Except.ok (decide (s = p))
      | _, _ => Except.error EvalErr.typeError

/-- The state of an atomic `Condition` node (conditions.py lines
269-392).  `id` stands for the uuid; `evaluated_instance` and
`evaluated_attribute` come from `BaseCondition.__init__` (both `None`
initially, modelled as a primitive-None instance and `Option.none`). -/
structure Condition where
  id : String
  evaluated_instance : PyObj := PyObj.prim Value.none
  evaluated_attribute : Option String := Option.none
  a : Value := Value.none
  b : Value := Value.none
  eval_function : Option PredKind := Option.none
  is_valid : Validity := Validity.notEvaluated
deriving DecidableEq, Repr

/-- `Condition()` with a given uuid: the constructor defaults. -/
def freshCondition (id : String) : Condition :=
  { id := id }

namespace Condition

/-- `BaseCondition.on(value)` (lines 86-88): store the evaluation target
instance, return self. -/
def on_ (c : Condition) (value : PyObj) : Condition :=
  { c with evaluated_instance := value }

/-- `BaseCondition.attribute(value)` (lines 90-98): store the attribute
name only when the bound instance has it; otherwise print a diagnostic
and keep the prior binding; return self either way. -/
def attribute_ (c : Condition) (value : String) : Condition :=
  if hasattr c.evaluated_instance value then
    { c with evaluated_attribute := Option.some value }
  else
    c

/-- `Condition.when(value)` (lines 288-290): store the `a` operand. -/
def when (c : Condition) (value : Value) : Condition :=
  { c with a := value }

/-- `Condition.is_none` selector (lines 300-303). -/
def is_none (c : Condition) : Condition :=
  { c with eval_function := Option.some PredKind.isNone }

/-- `Condition.is_not_none` selector (lines 305-308). -/
def is_not_none (c : Condition) : Condition :=
  { c with eval_function := Option.some PredKind.isNotNone }

/-- `Condition.is_empty` selector (lines 310-313). -/
def is_empty (c : Condition) : Condition :=
  { c with eval_function := Option.some PredKind.isEmpty }

/-- `Condition.is_not_empty` selector (lines 315-318). -/
def is_not_empty (c : Condition) : Condition :=
  { c with eval_function := Option.some PredKind.isNotEmpty }

/-- `Condition.is_bool` selector (lines 320-323). -/
def is_bool (c : Condition) : Condition :=
  { c with eval_function := Option.some PredKind.isBool }

/-- `Condition.is_integer` selector (lines 325-328). -/
def is_integer (c : Condition) : Condition :=
  { c with eval_function := Option.some PredKind.isInteger }

/-- `Condition.is_number` selector (lines 330-333). -/
def is_number (c : Condition) : Condition :=
  { c with eval_function := Option.some PredKind.isNumber }

/-- `Condition.is_string` selector (lines 335-338). -/
def is_string (c : Condition) : Condition :=
  { c with eval_function := Option.some PredKind.isString }

/-- `Condition.is_equal(b)` selector (lines 340-343). -/
def is_equal (c : Condition) (b : Value) : Condition :=
  { c with b := b, eval_function := Option.some PredKind.isEqual }

/-- `Condition.is_not_equal(b)` selector (lines 345-348). -/
def is_not_equal (c : Condition) (b : Value) : Condition :=
  { c with b := b, eval_function := Option.some PredKind.isNotEqual }

/-- `Condition.is_less(b)` selector (lines 350-353). -/
def is_less (c : Condition) (b : Value) : Condition :=
  { c with b := b, eval_function := Option.some PredKind.isLess }

/-- `Condition.is_less_equal(b)` selector (lines 355-358). -/
def is_less_equal (c : Condition) (b : Value) : Condition :=
  { c with b := b, eval_function := Option.some PredKind.isLessEqual }

/-- `Condition.is_greater(b)` selector (lines 360-363). -/
def is_greater (c : Condition) (b : Value) : Condition :=
  { c with b := b, eval_function := Option.some PredKind.isGreater }

/-- `Condition.is_greater_equal(b)` selector (lines 365-368). -/
def is_greater_equal (c : Condition) (b : Value) : Condition :=
  { c with b := b, eval_function := Option.some PredKind.isGreaterEqual }

/-- `Condition.is_match(b)` selector (lines 370-373). -/
def is_match (c : Condition) (b : Value) : Condition :=
  { c with b := b, eval_function := Option.some PredKind.isMatch }

/-- `self._get_value(a)` as a method: resolution against the condition's
own bound instance. -/
def get_value (c : Condition) (a : Value) : Value :=
  getValue c.evaluated_instance a

/-- The argument list the call `self._eval_function(self._a, self._b)`
(line 391) passes to the selected predicate: the two resolved operands,
always both of them. -/
def evalCallArgs (c : Condition) : List Value :=
  [c.get_value c.a, c.get_value c.b]

/-- `Condition.evaluate` (lines 386-392): reset `_is_valid` to the
sentinel, overwrite `_a` and `_b` with their resolved values, then call
`self._eval_function(self._a, self._b)` — a `TypeError` when no
predicate was selected (`None` is not callable) — and store the boolean
result; return self. -/
def evaluate (c : Condition) : Except EvalErr Condition :=
  let c1 : Condition :=
    { c with is_valid := Validity.notEvaluated,
             a := c.get_value c.a,
             b := c.get_value c.b }
  match c1.eval_function with
  | Option.none => Except.error EvalErr.noneNotCallable
  | Option.some p =>
      match applyPred p c1.a c1.b with
      | Except.error e => Except.error e
      | Except.ok r => Except.ok { c1 with is_valid := Validity.valid r }

end Condition

/-- The local state of a `ConditionSet` node (conditions.py lines
139-246), apart from the child mapping: uuid, the shared evaluation
context from `BaseCondition.__init__`, the `_logical` combinator string
(default `"all"`) and `_is_valid` (default `True` from the base class;
`ConditionSet` never resets it to the sentinel). -/
structure SetData where
  id : String
  evaluated_instance : PyObj := PyObj.prim Value.none
  evaluated_attribute : Option String := Option.none
  logical : String := "all"
  is_valid : Bool := true
deriving DecidableEq, Repr

/-- `ConditionSet()` with a given uuid: the constructor defaults. -/
def freshSetData (id : String) : SetData :=
  { id := id }

/-- `self._logical` dispatch in `ConditionSet.evaluate` (lines 239-244):
`"all"` → `all`, `"any"` → `any`, anything else (i.e. `"none"`) →
`not any`, each over the Python truthiness of the collected
`is_valid` slots. -/
def setLogic (logical : String) (vs : List Validity) : Bool :=
  if logical = "all" then vs.all truthy
  else if logical = "any" then vs.any truthy
  else !(vs.any truthy)

mutual

/-- A node of the composite tree: an atomic `Condition` or a
`ConditionSet` with its ordered child mapping (an `OrderedDict` keyed by
child id; here the insertion-ordered list of children, each child
carrying its own id). -/
inductive Node where
  | cond (c : Condition)
  | condSet (d : SetData) (children : NodeList)

/-- The insertion-ordered values of a `ConditionSet`'s `_conditions`
`OrderedDict`. -/
inductive NodeList where
  | nil
  | cons (head : Node) (tail : NodeList)

end

namespace Node

/-- The node's uuid (`self._id`), the key under which `add_condition`
stores it. -/
def idOf : Node → String
  | cond c => c.id
  | condSet d _ => d.id

/-- The node's `is_valid` slot as read by the aggregation comprehension
in `ConditionSet.evaluate`. -/
def validityOf : Node → Validity
  | cond c => c.is_valid
  | condSet d _ => Validity.valid d.is_valid

/-- The node's `_evaluated_attribute` slot. -/
def attrOf : Node → Option String
  | cond c => c.evaluated_attribute
  | condSet d _ => d.evaluated_attribute

/-- The node's `_evaluated_instance` slot. -/
def instOf : Node → PyObj
  | cond c => c.evaluated_instance
  | condSet d _ => d.evaluated_instance

/-- The node's child mapping (empty for an atomic condition). -/
def childrenOf : Node → NodeList
  | cond _ => NodeList.nil
  | condSet _ cs => cs

end Node

namespace NodeList

/-- The first child, if any. -/
def headNode : NodeList → Option Node
  | nil => Option.none
  | cons n _ => Option.some n

/-- The keys of the child mapping in insertion order. -/
def ids : NodeList → List String
  | nil => []
  | cons n rest => n.idOf :: rest.ids

/-- The `is_valid` slots of the children in insertion order (the list
comprehension at line 236). -/
def valids : NodeList → List Validity
  | nil => []
  | cons n rest => n.validityOf :: rest.valids

/-- `ConditionSet.add_condition(condition)` (lines 170-172):
`self._conditions[condition.id] = condition` — replace the entry stored
under the same id, keeping its position, or append a new entry. -/
def addNode : NodeList → Node → NodeList
  | nil, n => cons n nil
  | cons m rest, n =>
      if m.idOf = n.idOf then cons n rest else cons m (rest.addNode n)

end NodeList

mutual

/-- `BaseCondition.on` &#47; `ConditionSet.on` (lines 86-88, 200-208) at
the `Node` level: store the target instance locally and, on a composite,
propagate `on(value)` to every child. -/
def Node.on_ (value : PyObj) : Node → Node
  | Node.cond c => Node.cond (c.on_ value)
  | Node.condSet d cs =>
      Node.condSet { d with evaluated_instance := value } (NodeList.onAll value cs)

/-- Propagation of `on(value)` over the child mapping. -/
def NodeList.onAll (value : PyObj) : NodeList → NodeList
  | NodeList.nil => NodeList.nil
  | NodeList.cons n rest =>
      NodeList.cons (n.on_ value) (NodeList.onAll value rest)

end

mutual

/-- `BaseCondition.attribute` &#47; `ConditionSet.attribute` (lines 90-98,
210-224) at the `Node` level: store the attribute name locally only when
the bound instance has it (otherwise print a diagnostic and keep the
prior binding) and, on a composite, propagate `attribute(value)` to
every child unconditionally. -/
def Node.attribute_ (value : String) : Node → Node
  | Node.cond c => Node.cond (c.attribute_ value)
  | Node.condSet d cs =>
      Node.condSet
        (if hasattr d.evaluated_instance value then
          { d with evaluated_attribute := Option.some value }
        else d)
        (NodeList.attrAll value cs)

/-- Propagation of `attribute(value)` over the child mapping. -/
def NodeList.attrAll (value : String) : NodeList → NodeList
  | NodeList.nil => NodeList.nil
  | NodeList.cons n rest =>
      NodeList.cons (n.attribute_ value) (NodeList.attrAll value rest)

end

mutual

/-- `Condition.evaluate` &#47; `ConditionSet.evaluate` at the `Node` level.
For a composite (lines 229-246): evaluate every child, re-storing each
evaluated child via `add_condition` (line 233); collect the children's
`is_valid` slots (line 236); apply the `_logical` dispatch (lines
239-244) and store the aggregate; return self.  A child's exception
propagates to the caller of the set's `evaluate`. -/
def Node.evaluate : Node → Except EvalErr Node
  | Node.cond c =>
      match c.evaluate with
      | Except.error e => Except.error e
      | Except.ok c1 => Except.ok (Node.cond c1)
  | Node.condSet d cs =>
      match NodeList.evalStore cs cs with
      | Except.error e => Except.error e
      | Except.ok cs1 =>
          Except.ok
            (Node.condSet { d with is_valid := setLogic d.logical cs1.valids } cs1)

/-- The comprehension at line 233: iterate the children in insertion
order (first argument), evaluating each and re-storing it in the child
mapping (second argument, the accumulating `_conditions`). -/
def NodeList.evalStore : NodeList → NodeList → Except EvalErr NodeList
  | NodeList.nil, acc => Except.ok acc
  | NodeList.cons n rest, acc =>
      match n.evaluate with
      | Except.error e => Except.error e
      | Except.ok n1 => NodeList.evalStore rest (acc.addNode n1)

end

mutual

/-- Every node of the tree (the node itself and all its descendants)
has `value` as its bound target instance. -/
def Node.allBoundTo (value : PyObj) : Node → Bool
  | Node.cond c => decide (c.evaluated_instance = value)
  | Node.condSet d cs =>
      decide (d.evaluated_instance = value) && NodeList.allBoundTo value cs

/-- `Node.allBoundTo` over a child mapping. -/
def NodeList.allBoundTo (value : PyObj) : NodeList → Bool
  | NodeList.nil => true
  | NodeList.cons n rest =>
      Node.allBoundTo value n && NodeList.allBoundTo value rest

end

mutual

/-- Node-by-node outcome of `attribute(name)`: the second tree has the
same shape and bound instances as the first, and each node's stored
target attribute is `name` when that node's own bound instance exposes
the attribute, and its prior binding otherwise. -/
def Node.attrUpdated (name : String) : Node → Node → Bool
  | Node.cond c, Node.cond c1 =>
      decide (c1.evaluated_instance = c.evaluated_instance)
        && decide (c1.evaluated_attribute =
              (if hasattr c.evaluated_instance name then Option.some name
               else c.evaluated_attribute))
  | Node.condSet d cs, Node.condSet d1 cs1 =>
      decide (d1.evaluated_instance = d.evaluated_instance)
        && decide (d1.evaluated_attribute =
              (if hasattr d.evaluated_instance name then Option.some name
               else d.evaluated_attribute))
        && NodeList.attrUpdated name cs cs1
  | _, _ => false

/-- `Node.attrUpdated` over child mappings of equal length, child by
child. -/
def NodeList.attrUpdated (name : String) : NodeList → NodeList → Bool
  | NodeList.nil, NodeList.nil => true
  | NodeList.cons n rest, NodeList.cons n1 rest1 =>
      Node.attrUpdated name n n1 && NodeList.attrUpdated name rest rest1
  | _, _ => false

end

/-! ## Helper lemmas -/

/-- Destructuring of a successful `Condition.evaluate`: a predicate was
selected, it returned a boolean on the resolved operands, and the result
is the input with operands overwritten by their resolved values and
`is_valid` set to that boolean. -/
theorem Condition.evaluate_ok_iff (c c1 : Condition) :
    c.evaluate = Except.ok c1 ↔
      ∃ p r, c.eval_function = Option.some p ∧
        applyPred p (c.get_value c.a) (c.get_value c.b) = Except.ok r ∧
        c1 = { c with a := c.get_value c.a, b := c.get_value c.b,
                      is_valid := Validity.valid r } := by
  unfold Condition.evaluate
  cases hf : c.eval_function with
  | none => simp [hf]
  | some p =>
    cases ha : applyPred p (c.get_value c.a) (c.get_value c.b) with
    | error e => simp [hf, ha]
    | ok r =>
      simp only [hf, ha]
      constructor
      · intro h
        injection h with h
        exact ⟨p, r, rfl, ha, h.symm⟩
      · rintro ⟨p', r', hp', ha', hc⟩
        injection hp' with hp'
        subst hp'
        rw [ha] at ha'
        injection ha' with ha'
        subst ha'
        rw [hc]

/-! ## Claims -/

/-- C2: for a `Condition` on which no predicate has been selected,
`evaluate()` does not raise a distinct "unconfigured condition" error:
it crashes by calling `self._eval_function` while it is `None`, the
generic null-reference-style `TypeError` the spec forbids.  This theorem
evaluates the code at the failing input. -/
theorem condition_evaluate_unconfigured :
    (freshCondition "c2").evaluate = Except.error EvalErr.noneNotCallable := rfl

/-- C3 counterexample: `Condition().on(5).is_greater(3).evaluate` does
not end with `validityState == True` — `on` stores the target instance,
not the `a` operand, so the predicate is invoked on `(None, 3)`. -/
theorem scenario1_on_counterexample :
    ((((freshCondition "c3").on_ (PyObj.prim (Value.int 5))).is_greater
        (Value.int 3)).evaluate).map (fun c => c.is_valid)
      ≠ Except.ok (Validity.valid true) := by
  intro h
  exact Except.noConfusion h

/-- C3 amended: a fresh `Condition` on which `when(5)` (the setter of
the `a` operand), then `is_greater(3)`, then `evaluate` are called ends
with `validityState` equal to `True`. -/
theorem scenario1_when_amended (i : String) :
    ((((freshCondition i).when (Value.int 5)).is_greater
        (Value.int 3)).evaluate).map (fun c => c.is_valid)
      = Except.ok (Validity.valid true) := rfl

/-- C6: when the stored operand is a string that does not name an
attribute of the bound target instance, operand resolution
(`Condition._get_value`) returns the literal string itself; the
`AttributeError` is caught, no exception escapes (resolution is total).
-/
theorem condition_get_value_fallback (c : Condition) (s : String)
    (h : hasattr c.evaluated_instance s = false) :
    c.get_value (Value.str s) = Value.str s := by
  unfold Condition.get_value getValue
  cases hl : lookupAttr c.evaluated_instance s with
  | none => simp [hl]
  | some v =>
    exfalso
    unfold hasattr at h
    rw [hl] at h
    simp at h

/-- Witness for C6: the attribute name `"lr"` is not on the fresh
condition's bound instance and resolves to itself. -/
theorem condition_get_value_fallback_witness :
    hasattr (freshCondition "w6").evaluated_instance "lr" = false ∧
      (freshCondition "w6").get_value (Value.str "lr") = Value.str "lr" :=
  ⟨rfl, condition_get_value_fallback (freshCondition "w6") "lr" rfl⟩

/-- C8 counterexample: a `Condition` configured with the unary selector
`is_empty` does not invoke its predicate with exactly one argument —
line 391 always passes both `self._a` and `self._b`. -/
theorem unary_call_args_counterexample :
    (Condition.evalCallArgs ((freshCondition "c8").is_empty)).length ≠ 1 := by
  decide

/-- C8 amended: `evaluate()` invokes the selected predicate with two
arguments — the resolved `targetExpression` and the resolved second
operand — and for a unary predicate the second operand does not affect
the evaluation outcome. -/
theorem condition_unary_second_operand_irrelevant
    (c : Condition) (p : PredKind) (v : Value)
    (hp : c.eval_function = Option.some p) (hu : isUnaryPred p = true) :
    (Condition.evalCallArgs c).length = 2 ∧
      (({ c with b := v } : Condition).evaluate).map (fun x => x.is_valid)
        = (c.evaluate).map (fun x => x.is_valid) := by
  refine ⟨rfl, ?_⟩
  cases p <;> simp [isUnaryPred] at hu <;>
    simp [Condition.evaluate, Condition.get_value, applyPred, hp, Except.map]

/-- Witness for C8 amended: an `is_empty` condition with an arbitrary
second operand evaluates exactly as without it. -/
theorem condition_unary_second_operand_irrelevant_witness :
    ((freshCondition "w8").is_empty).eval_function
        = Option.some PredKind.isEmpty ∧
      isUnaryPred PredKind.isEmpty = true ∧
      ((Condition.evalCallArgs ((freshCondition "w8").is_empty)).length = 2 ∧
        (({ (freshCondition "w8").is_empty with b := Value.int 7 }
            : Condition).evaluate).map (fun x => x.is_valid)
          = (((freshCondition "w8").is_empty).evaluate).map
              (fun x => x.is_valid)) :=
  ⟨rfl, rfl,
    condition_unary_second_operand_irrelevant
      ((freshCondition "w8").is_empty) PredKind.isEmpty (Value.int 7) rfl rfl⟩

/-- C7 counterexample: a configured `Condition` whose operand resolution
chains through two attribute names (`"x"` holds the string `"y"`, itself
an attribute holding `5`) changes `validityState` between two
back-to-back `evaluate()` calls with no binding change in between: the
first call stores the resolved operand `"y"` over the selector `"x"`,
and the second call resolves `"y"` one step further. -/
theorem condition_evaluate_not_idempotent_counterexample :
    ((((((freshCondition "c7").on_
          (PyObj.obj "T" [("x", Value.str "y"), ("y", Value.int 5)])).when
            (Value.str "x")).is_string).evaluate).map (fun c => c.is_valid)
        = Except.ok (Validity.valid true)) ∧
      (((((((freshCondition "c7").on_
            (PyObj.obj "T" [("x", Value.str "y"), ("y", Value.int 5)])).when
              (Value.str "x")).is_string).evaluate).bind
                Condition.evaluate).map (fun c => c.is_valid)
        = Except.ok (Validity.valid false)) :=
  ⟨rfl, rfl⟩

/-- C7 amended: calling `evaluate()` twice in a row with no binding
change yields the same `validityState` both times provided the operand
values stored by the first call are fixpoints of operand resolution
(e.g. not strings naming a further attribute of the bound target); the
second call then returns the very same state. -/
theorem condition_evaluate_idempotent_on_resolved (c c1 : Condition)
    (h1 : c.evaluate = Except.ok c1)
    (ha : c1.get_value c1.a = c1.a)
    (hb : c1.get_value c1.b = c1.b) :
    c1.evaluate = Except.ok c1 := by
  rw [Condition.evaluate_ok_iff] at h1 ⊢
  obtain ⟨p, r, hp, happ, hc⟩ := h1
  subst hc
  simp only [Condition.get_value] at ha hb ⊢
  refine ⟨p, r, hp, ?_, ?_⟩
  · rw [ha, hb]
    exact happ
  · rw [ha, hb]

/-- Witness for C7 amended: a literal-operand condition evaluates to the
same state twice. -/
theorem condition_evaluate_idempotent_on_resolved_witness :
    ((((freshCondition "w7").when (Value.int 1)).is_none).evaluate
        = Except.ok
            { id := "w7", evaluated_instance := PyObj.prim Value.none,
              evaluated_attribute := Option.none, a := Value.int 1,
              b := Value.none, eval_function := Option.some PredKind.isNone,
              is_valid := Validity.valid false }) ∧
      (({ id := "w7", evaluated_instance := PyObj.prim Value.none,
          evaluated_attribute := Option.none, a := Value.int 1,
          b := Value.none, eval_function := Option.some PredKind.isNone,
          is_valid := Validity.valid false } : Condition).evaluate
        = Except.ok
            { id := "w7", evaluated_instance := PyObj.prim Value.none,
              evaluated_attribute := Option.none, a := Value.int 1,
              b := Value.none, eval_function := Option.some PredKind.isNone,
              is_valid := Validity.valid false }) :=
  ⟨rfl,
    condition_evaluate_idempotent_on_resolved
      (((freshCondition "w7").when (Value.int 1)).is_none)
      { id := "w7", evaluated_instance := PyObj.prim Value.none,
        evaluated_attribute := Option.none, a := Value.int 1,
        b := Value.none, eval_function := Option.some PredKind.isNone,
        is_valid := Validity.valid false }
      rfl rfl rfl⟩

/-- C9: `Condition.evaluate` replaces the stored operands with their
resolved values — after a successful `evaluate`, the stored `a` and `b`
are exactly `_get_value` of the previous ones, and a later `evaluate`
after rebinding a different target resolves those stored values (not the
original selector strings). -/
theorem condition_evaluate_resolves_in_place
    (c c1 c2 : Condition) (t2 : PyObj)
    (h1 : c.evaluate = Except.ok c1)
    (h2 : (c1.on_ t2).evaluate = Except.ok c2) :
    c1.a = c.get_value c.a ∧ c1.b = c.get_value c.b ∧
      c2.a = getValue t2 c1.a ∧ c2.b = getValue t2 c1.b := by
  rw [Condition.evaluate_ok_iff] at h1 h2
  obtain ⟨p, r, hp, happ, hc⟩ := h1
  obtain ⟨p', r', hp', happ', hc'⟩ := h2
  subst hc'
  subst hc
  exact ⟨rfl, rfl, rfl, rfl⟩

/-- Witness for C9: a condition whose operand is the selector string
`"x"` for a target where `x = 1`; after the first `evaluate` the stored
operand is the value `1`, and re-evaluating against a new target where
`x = 9` still uses `1` — the original selector is gone. -/
theorem condition_evaluate_resolves_in_place_witness :
    (((((freshCondition "w9").on_ (PyObj.obj "D" [("x", Value.int 1)])).when
          (Value.str "x")).is_none).evaluate
        = Except.ok
            { id := "w9",
              evaluated_instance := PyObj.obj "D" [("x", Value.int 1)],
              evaluated_attribute := Option.none, a := Value.int 1,
              b := Value.none, eval_function := Option.some PredKind.isNone,
              is_valid := Validity.valid false }) ∧
      ((({ id := "w9",
           evaluated_instance := PyObj.obj "D" [("x", Value.int 1)],
           evaluated_attribute := Option.none, a := Value.int 1,
           b := Value.none, eval_function := Option.some PredKind.isNone,
           is_valid := Validity.valid false } : Condition).on_
            (PyObj.obj "D" [("x", Value.int 9)])).evaluate
        = Except.ok
            { id := "w9",
              evaluated_instance := PyObj.obj "D" [("x", Value.int 9)],
              evaluated_attribute := Option.none, a := Value.int 1,
              b := Value.none, eval_function := Option.some PredKind.isNone,
              is_valid := Validity.valid false }) ∧
      (({ id := "w9",
          evaluated_instance := PyObj.obj "D" [("x", Value.int 1)],
          evaluated_attribute := Option.none, a := Value.int 1,
          b := Value.none, eval_function := Option.some PredKind.isNone,
          is_valid := Validity.valid false } : Condition).a
          = ((((freshCondition "w9").on_
                (PyObj.obj "D" [("x", Value.int 1)])).when
                  (Value.str "x")).is_none).get_value (Value.str "x")) :=
  ⟨rfl, rfl,
    (condition_evaluate_resolves_in_place
      ((((freshCondition "w9").on_ (PyObj.obj "D" [("x", Value.int 1)])).when
          (Value.str "x")).is_none)
      { id := "w9", evaluated_instance := PyObj.obj "D" [("x", Value.int 1)],
        evaluated_attribute := Option.none, a := Value.int 1,
        b := Value.none, eval_function := Option.some PredKind.isNone,
        is_valid := Validity.valid false }
      { id := "w9", evaluated_instance := PyObj.obj "D" [("x", Value.int 9)],
        evaluated_attribute := Option.none, a := Value.int 1,
        b := Value.none, eval_function := Option.some PredKind.isNone,
        is_valid := Validity.valid false }
      (PyObj.obj "D" [("x", Value.int 9)]) rfl rfl).1⟩

mutual

/-- After `on(value)` on any node, every node of the resulting tree has
`value` as its bound target instance. -/
theorem Node.on_allBound (value : PyObj) :
    (n : Node) → Node.allBoundTo value (Node.on_ value n) = true
  | Node.cond c => by
      simp [Node.on_, Node.allBoundTo, Condition.on_]
  | Node.condSet d cs => by
      simp [Node.on_, Node.allBoundTo]
      exact NodeList.onAll_allBound value cs

/-- After propagating `on(value)` over a child mapping, every node of
every child tree has `value` as its bound target instance. -/
theorem NodeList.onAll_allBound (value : PyObj) :
    (cs : NodeList) → NodeList.allBoundTo value (NodeList.onAll value cs) = true
  | NodeList.nil => rfl
  | NodeList.cons n rest => by
      simp [NodeList.onAll, NodeList.allBoundTo]
      exact ⟨Node.on_allBound value n, NodeList.onAll_allBound value rest⟩

end

/-- C4: `bindTarget(x)` (the code's `on(x)`) on a `ConditionSet` leaves
the bound target instance of the set and of every descendant node —
nested sets included — identical to `x`. -/
theorem conditionset_on_propagates (x : PyObj) (d : SetData) (cs : NodeList) :
    Node.allBoundTo x (Node.on_ x (Node.condSet d cs)) = true :=
  Node.on_allBound x (Node.condSet d cs)

/-- C5 counterexample: `bindAttribute` (the code's `attribute`) does not
overwrite descendants unconditionally — a child whose bound instance
lacks the attribute name keeps its prior binding (`"beta"` survives the
parent-level `attribute("alpha")`). -/
theorem conditionset_attribute_overwrite_counterexample :
    ((Node.attribute_ "alpha"
        (Node.condSet (freshSetData "s5")
          (NodeList.cons
            (Node.cond
              { freshCondition "k5" with
                  evaluated_attribute := Option.some "beta" })
            NodeList.nil))).childrenOf.headNode).map Node.attrOf
        = Option.some (Option.some "beta") ∧
      (Option.some "beta" : Option String) ≠ Option.some "alpha" :=
  ⟨rfl, by decide⟩

mutual

/-- `attribute(name)` realises the node-by-node conditional outcome on
every tree: each node whose own bound instance exposes the attribute
stores the name, each node whose instance lacks it keeps its prior
binding, and no bound instance changes. -/
theorem Node.attribute_updates (name : String) :
    (n : Node) → Node.attrUpdated name n (Node.attribute_ name n) = true
  | Node.cond c => by
      by_cases h : hasattr c.evaluated_instance name <;>
        simp [Node.attribute_, Node.attrUpdated, Condition.attribute_, h]
  | Node.condSet d cs => by
      by_cases h : hasattr d.evaluated_instance name <;>
        simp [Node.attribute_, Node.attrUpdated, h] <;>
        exact NodeList.attrAll_updates name cs

/-- `Node.attribute_updates` over a child mapping. -/
theorem NodeList.attrAll_updates (name : String) :
    (cs : NodeList) →
      NodeList.attrUpdated name cs (NodeList.attrAll name cs) = true
  | NodeList.nil => rfl
  | NodeList.cons n rest => by
      simp only [NodeList.attrAll, NodeList.attrUpdated, Bool.and_eq_true]
      exact ⟨Node.attribute_updates name n,
             NodeList.attrAll_updates name rest⟩

end

/-- C5 amended: `attribute(name)` on a `ConditionSet` overwrites the
stored target attribute of the set and of every descendant node whose
bound target instance exposes an attribute of that name; every node
whose instance lacks it keeps its prior binding (bound instances are
unchanged throughout) — so the overwrite is conditional per node, not
unconditional. -/
theorem conditionset_attribute_conditional_overwrite
    (name : String) (d : SetData) (cs : NodeList) :
    Node.attrUpdated name (Node.condSet d cs)
        (Node.attribute_ name (Node.condSet d cs)) = true :=
  Node.attribute_updates name (Node.condSet d cs)

/-- C1: after a successful `ConditionSet.evaluate`, the children have
all been re-evaluated (and re-stored via `add_condition`), and the set's
`validityState` is the combinator applied over the children's resulting
`validityState`s: All is the logical AND (vacuously true when empty),
Any the logical OR (vacuously false when empty), None true iff no child
is true (logical NOR, true when empty). -/
theorem conditionset_evaluate_combinator (d : SetData) (cs : NodeList) (n1 : Node)
    (h : Node.evaluate (Node.condSet d cs) = Except.ok n1) :
    ∃ cs1, NodeList.evalStore cs cs = Except.ok cs1 ∧
      n1 = Node.condSet
            { d with is_valid := setLogic d.logical cs1.valids } cs1 ∧
      (d.logical = "all" →
        (setLogic d.logical cs1.valids = true ↔
          ∀ v ∈ cs1.valids, truthy v = true)) ∧
      (d.logical = "any" →
        (setLogic d.logical cs1.valids = true ↔
          ∃ v ∈ cs1.valids, truthy v = true)) ∧
      (d.logical ≠ "all" → d.logical ≠ "any" →
        (setLogic d.logical cs1.valids = true ↔
          ¬ ∃ v ∈ cs1.valids, truthy v = true)) := by
  simp only [Node.evaluate] at h
  cases hs : NodeList.evalStore cs cs with
  | error e =>
    rw [hs] at h
    exact Except.noConfusion h
  | ok cs1 =>
    rw [hs] at h
    injection h with h
    refine ⟨cs1, rfl, h.symm, ?_, ?_, ?_⟩
    · intro hl
      simp [setLogic, hl, List.all_eq_true]
    · intro hl
      simp [setLogic, hl, List.any_eq_true]
    · intro hl1 hl2
      simp [setLogic, hl1, hl2, List.any_eq_true]

/-- Witness for C1: the empty set under the default All combinator
evaluates to vacuous truth. -/
theorem conditionset_evaluate_combinator_witness :
    Node.evaluate (Node.condSet (freshSetData "s1") NodeList.nil)
        = Except.ok (Node.condSet (freshSetData "s1") NodeList.nil) ∧
      (∃ cs1, NodeList.evalStore NodeList.nil NodeList.nil = Except.ok cs1 ∧
        Node.condSet (freshSetData "s1") NodeList.nil
          = Node.condSet
              { freshSetData "s1" with
                  is_valid := setLogic (freshSetData "s1").logical cs1.valids }
              cs1 ∧
        ((freshSetData "s1").logical = "all" →
          (setLogic (freshSetData "s1").logical cs1.valids = true ↔
            ∀ v ∈ cs1.valids, truthy v = true)) ∧
        ((freshSetData "s1").logical = "any" →
          (setLogic (freshSetData "s1").logical cs1.valids = true ↔
            ∃ v ∈ cs1.valids, truthy v = true)) ∧
        ((freshSetData "s1").logical ≠ "all" →
          (freshSetData "s1").logical ≠ "any" →
          (setLogic (freshSetData "s1").logical cs1.valids = true ↔
            ¬ ∃ v ∈ cs1.valids, truthy v = true))) :=
  ⟨rfl,
    conditionset_evaluate_combinator (freshSetData "s1") NodeList.nil
      (Node.condSet (freshSetData "s1") NodeList.nil) rfl⟩

/-- A successful `evaluate` never changes a node's id: the evaluated
node is re-stored under the key it already had. -/
theorem Node.evaluate_idOf (n n1 : Node) (h : n.evaluate = Except.ok n1) :
    n1.idOf = n.idOf := by
  cases n with
  | cond c =>
    simp only [Node.evaluate] at h
    cases hc : c.evaluate with
    | error e =>
      rw [hc] at h
      exact Except.noConfusion h
    | ok c1 =>
      rw [hc] at h
      injection h with h
      rw [Condition.evaluate_ok_iff] at hc
      obtain ⟨p, r, _, _, hc1⟩ := hc
      subst hc1
      rw [h.symm]
      rfl
  | condSet d cs =>
    simp only [Node.evaluate] at h
    cases hs : NodeList.evalStore cs cs with
    | error e =>
      rw [hs] at h
      exact Except.noConfusion h
    | ok cs1 =>
      rw [hs] at h
      injection h with h
      rw [h.symm]
      rfl

/-- `add_condition` with a key already in the mapping replaces that
entry in place: the key list is unchanged. -/
theorem NodeList.addNode_ids :
    (acc : NodeList) → (n : Node) → n.idOf ∈ acc.ids →
      (acc.addNode n).ids = acc.ids
  | NodeList.nil, n, h => by simp [NodeList.ids] at h
  | NodeList.cons m rest, n, h => by
      by_cases hm : m.idOf = n.idOf
      · simp [NodeList.addNode, hm, NodeList.ids]
      · have h1 : n.idOf ∈ rest.ids := by
          simp only [NodeList.ids, List.mem_cons] at h
          rcases h with h | h
          · exact absurd h.symm hm
          · exact h
        simp [NodeList.addNode, hm, NodeList.ids,
              NodeList.addNode_ids rest n h1]

/-- The re-store loop of `ConditionSet.evaluate` preserves the key list
of the child mapping, provided every iterated child's id is already a
key (as it is when iterating the mapping itself). -/
theorem NodeList.evalStore_ids :
    (rest acc out : NodeList) → (∀ s, s ∈ rest.ids → s ∈ acc.ids) →
      NodeList.evalStore rest acc = Except.ok out → out.ids = acc.ids
  | NodeList.nil, acc, out, _, h => by
      simp only [NodeList.evalStore] at h
      injection h with h
      rw [h]
  | NodeList.cons n rest, acc, out, hsub, h => by
      simp only [NodeList.evalStore] at h
      cases hn : n.evaluate with
      | error e =>
        rw [hn] at h
        exact Except.noConfusion h
      | ok n1 =>
        rw [hn] at h
        have hid : n1.idOf = n.idOf := Node.evaluate_idOf n n1 hn
        have hmem : n1.idOf ∈ acc.ids := by
          rw [hid]
          exact hsub n.idOf (by simp [NodeList.ids])
        have hadd : (acc.addNode n1).ids = acc.ids :=
          NodeList.addNode_ids acc n1 hmem
        have hsub1 : ∀ s, s ∈ rest.ids → s ∈ (acc.addNode n1).ids := by
          intro s hs
          rw [hadd]
          exact hsub s (by simp [NodeList.ids, hs])
        rw [NodeList.evalStore_ids rest (acc.addNode n1) out hsub1 h, hadd]

/-- C10: a successful `ConditionSet.evaluate` leaves the child mapping
structurally unchanged — the keys and their insertion order afterwards
equal those before, and the set keeps its own id; each evaluated child
was re-stored under its existing id, none added or removed. -/
theorem conditionset_evaluate_preserves_children
    (d : SetData) (cs : NodeList) (n1 : Node)
    (h : Node.evaluate (Node.condSet d cs) = Except.ok n1) :
    (n1.childrenOf).ids = cs.ids ∧ n1.idOf = d.id := by
  simp only [Node.evaluate] at h
  cases hs : NodeList.evalStore cs cs with
  | error e =>
    rw [hs] at h
    exact Except.noConfusion h
  | ok cs1 =>
    rw [hs] at h
    injection h with h
    rw [h.symm]
    exact ⟨NodeList.evalStore_ids cs cs cs1 (fun s hs1 => hs1) hs, rfl⟩

/-- Witness for C10: a one-child set evaluates successfully and keeps
its single key `"k1"`. -/
theorem conditionset_evaluate_preserves_children_witness :
    Node.evaluate
        (Node.condSet (freshSetData "s2")
          (NodeList.cons
            (Node.cond (((freshCondition "k1").when (Value.int 0)).is_none))
            NodeList.nil))
        = Except.ok
            (Node.condSet { freshSetData "s2" with is_valid := false }
              (NodeList.cons
                (Node.cond
                  { id := "k1", evaluated_instance := PyObj.prim Value.none,
                    evaluated_attribute := Option.none, a := Value.int 0,
                    b := Value.none,
                    eval_function := Option.some PredKind.isNone,
                    is_valid := Validity.valid false })
                NodeList.nil)) ∧
      ((Node.condSet { freshSetData "s2" with is_valid := false }
          (NodeList.cons
            (Node.cond
              { id := "k1", evaluated_instance := PyObj.prim Value.none,
                evaluated_attribute := Option.none, a := Value.int 0,
                b := Value.none,
                eval_function := Option.some PredKind.isNone,
                is_valid := Validity.valid false })
            NodeList.nil)).childrenOf).ids
          = (NodeList.cons
              (Node.cond (((freshCondition "k1").when (Value.int 0)).is_none))
              NodeList.nil).ids ∧
      (Node.condSet { freshSetData "s2" with is_valid := false }
          (NodeList.cons
            (Node.cond
              { id := "k1", evaluated_instance := PyObj.prim Value.none,
                evaluated_attribute := Option.none, a := Value.int 0,
                b := Value.none,
                eval_function := Option.some PredKind.isNone,
                is_valid := Validity.valid false })
            NodeList.nil)).idOf = (freshSetData "s2").id :=
  ⟨rfl,
    (conditionset_evaluate_preserves_children (freshSetData "s2")
      (NodeList.cons
        (Node.cond (((freshCondition "k1").when (Value.int 0)).is_none))
        NodeList.nil)
      (Node.condSet { freshSetData "s2" with is_valid := false }
        (NodeList.cons
          (Node.cond
            { id := "k1", evaluated_instance := PyObj.prim Value.none,
              evaluated_attribute := Option.none, a := Value.int 0,
              b := Value.none,
              eval_function := Option.some PredKind.isNone,
              is_valid := Validity.valid false })
          NodeList.nil))
      rfl).1,
    (conditionset_evaluate_preserves_children (freshSetData "s2")
      (NodeList.cons
        (Node.cond (((freshCondition "k1").when (Value.int 0)).is_none))
        NodeList.nil)
      (Node.condSet { freshSetData "s2" with is_valid := false }
        (NodeList.cons
          (Node.cond
            { id := "k1", evaluated_instance := PyObj.prim Value.none,
              evaluated_attribute := Option.none, a := Value.int 0,
              b := Value.none,
              eval_function := Option.some PredKind.isNone,
              is_valid := Validity.valid false })
          NodeList.nil))
      rfl).2⟩

end MLStudio
